import Mathlib

/-!
Shallow embedding of the event-notification and state-synchronization core of
`libsoundtouch/device.py` (Bose SoundTouch client library).

The XML DOM is modelled by `Node` (elements with attributes and children, and
text nodes) together with `Dom`, which distinguishes a whole parsed document
from a single element node, because `xml.dom.minidom` gives
`getElementsByTagName` different scope on a `Document` (root element included)
and on an `Element` (descendants only).

Python exceptions are modelled by the `Except PyError` monad: code that can
raise returns `Except.error`, and an uncaught exception propagates through the
caller exactly as the monadic error does.
-/

/-- Python exception kinds that the embedded code can raise. -/
inductive PyError where
  | attributeError
  | typeError
  | valueError
  | keyError
  | expatError
deriving DecidableEq

/-- A node of the minidom tree: an element (tag, attributes, children) or a
text node. -/
inductive Node where
  | element (tag : String) (attrs : List (String × String)) (children : List Node)
  | text (s : String)

/-- The `nodeName` of a minidom node: the tag for elements, `#text` for text
nodes. -/
def Node.nodeName : Node → String
  | Node.element tag _ _ => tag
  | Node.text _ => "#text"

/-- The `nodeValue` of a minidom node: `None` for elements, the character data
for text nodes. -/
def Node.nodeValue : Node → Option String
  | Node.element _ _ _ => none
  | Node.text s => some s

/-- The attribute list of a node (empty for text nodes, which have no
attributes). -/
def Node.attrList : Node → List (String × String)
  | Node.element _ attrs _ => attrs
  | Node.text _ => []

/-- The child list of a node. -/
def Node.childList : Node → List Node
  | Node.element _ _ children => children
  | Node.text _ => []

/-- `firstChild` of a minidom node (`None` when there are no children). -/
def Node.firstChild (n : Node) : Option Node :=
  n.childList.head?

/-- `hasChildNodes()` of a minidom node. -/
def Node.hasChildNodes (n : Node) : Bool :=
  !n.childList.isEmpty

/-- Attribute lookup on a node, first binding of the given name. -/
def Node.getAttribute (n : Node) (name : String) : Option String :=
  (n.attrList.find? (fun p => p.1 == name)).map Prod.snd

/-- A minidom object handed to the helper functions: either a whole parsed
document or a single node inside one. -/
inductive Dom where
  | doc (root : Node)
  | node (n : Node)

/-- All elements with the given tag in the subtree rooted at a node, the node
itself included, in document (preorder) order. -/
def elemsSelf (tag : String) : Node → List Node
  | Node.text _ => []
  | Node.element t a cs =>
    (if t = tag then [Node.element t a cs] else []) ++ elemsList tag cs
where
  /-- All elements with the given tag inside a list of subtrees, in document
  order. -/
  elemsList (tag : String) : List Node → List Node
  | [] => []
  | c :: cs => elemsSelf tag c ++ elemsList tag cs

/-- `getElementsByTagName`: on a `Document` the search starts at the root
element (included); on an `Element` it covers strict descendants only. -/
def Dom.getElementsByTagName : Dom → String → List Node
  | Dom.doc root, tag => elemsSelf tag root
  | Dom.node n, tag => elemsSelf.elemsList tag n.childList

/-- `firstChild` of a `Dom`: the root element for a document, the first child
for a node. -/
def Dom.firstChild : Dom → Option Node
  | Dom.doc root => some root
  | Dom.node n => n.firstChild

/-- `_get_dom_attribute(xml_dom, attribute, default_value)`: the attribute
value when present, the default otherwise. -/
def _get_dom_attribute (xml_dom : Node) (attr : String)
    (default_value : Option String) : Option String :=
  match xml_dom.getAttribute attr with
  | some v => some v
  | none => default_value

/-- `_get_dom_elements(xml_dom, element)`. -/
def _get_dom_elements (xml_dom : Dom) (element : String) : List Node :=
  xml_dom.getElementsByTagName element

/-- `_get_dom_element(xml_dom, element)`: the first element with the given
tag, or `None`. -/
def _get_dom_element (xml_dom : Dom) (element : String) : Option Node :=
  match _get_dom_elements xml_dom element with
  | el :: _ => some el
  | [] => none

/-- Python's `str.strip()`: drop leading and trailing whitespace.  Defined
structurally on the character list so that it reduces definitionally. -/
def pyStrip (s : String) : String :=
  ⟨((s.data.dropWhile Char.isWhitespace).reverse.dropWhile Char.isWhitespace).reverse⟩

/-- `_get_dom_element_value(xml_dom, element, default_value)`: the stripped
text of the element's first child when the element and that child exist, the
default otherwise.  When the first child is not a text node its `nodeValue` is
`None` and `.strip()` raises an `AttributeError`. -/
def _get_dom_element_value (xml_dom : Dom) (element : String)
    (default_value : Option String) : Except PyError (Option String) :=
  match _get_dom_element xml_dom element with
  | some el =>
    match el.firstChild with
    | some fc =>
      match fc.nodeValue with
      | some s => Except.ok (some (pyStrip s))
      | none => Except.error PyError.attributeError
    | none => Except.ok default_value
  | none => Except.ok default_value

/-- `_get_dom_element_attribute(xml_dom, element, attribute, default_value)`:
the attribute of the first element with the given tag; `None` (not the
default) when the element exists but lacks the attribute; the default when
the element does not exist. -/
def _get_dom_element_attribute (xml_dom : Dom) (element attr : String)
    (default_value : Option String) : Option String :=
  match _get_dom_element xml_dom element with
  | some el =>
    match el.getAttribute attr with
    | some v => some v
    | none => none
  | none => default_value

/-- Python's `int(str)` on the decimal text of a string: optional sign and
decimal digits after stripping surrounding whitespace, `ValueError`
otherwise. -/
def pyStrToInt (s : String) : Except PyError Int :=
  let cs := (pyStrip s).data
  let signAndDigits : Bool × List Char :=
    match cs with
    | '-' :: rest => (true, rest)
    | '+' :: rest => (false, rest)
    | _ => (false, cs)
  if signAndDigits.2 = [] ∨ ¬ signAndDigits.2.all Char.isDigit then
    Except.error PyError.valueError
  else
    let n : Nat := signAndDigits.2.foldl (fun acc c => acc * 10 + (c.toNat - 48)) 0
    Except.ok (if signAndDigits.1 then -(n : Int) else (n : Int))

/-- Python's `int(x)` applied to an optional string: `int(None)` raises a
`TypeError`. -/
def pyInt (x : Option String) : Except PyError Int :=
  match x with
  | none => Except.error PyError.typeError
  | some s => pyStrToInt s

/-- `Volume`: the parsed volume snapshot. -/
structure Volume where
  actual : Int
  target : Int
  muted : Bool
deriving DecidableEq

/-- `Volume.__init__(xml_dom)`: `actual` and `target` are `int(...)` of the
extracted element texts with no guard against absence, `muted` compares the
extracted text with the literal `"true"`. -/
def Volume.init (xml_dom : Dom) : Except PyError Volume :=
  match _get_dom_element_value xml_dom "actualvolume" none with
  | Except.error e => Except.error e
  | Except.ok av =>
    match pyInt av with
    | Except.error e => Except.error e
    | Except.ok actual =>
      match _get_dom_element_value xml_dom "targetvolume" none with
      | Except.error e => Except.error e
      | Except.ok tv =>
        match pyInt tv with
        | Except.error e => Except.error e
        | Except.ok target =>
          match _get_dom_element_value xml_dom "muteenabled" none with
          | Except.error e => Except.error e
          | Except.ok me =>
            Except.ok { actual := actual, target := target,
                        muted := me = some "true" }

/-- `ContentItem`: the parsed content-item payload. -/
structure ContentItem where
  name : Option String
  source : Option String
  type : Option String
  location : Option String
  sourceAccount : Option String
  isPresetable : Bool
deriving DecidableEq

/-- `ContentItem.__init__(xml_dom)`: `itemName` text plus four attributes of
the node itself; `isPresetable` compares the attribute with `"true"`. -/
def ContentItem.init (xml_dom : Node) : Except PyError ContentItem :=
  match _get_dom_element_value (Dom.node xml_dom) "itemName" none with
  | Except.error e => Except.error e
  | Except.ok name =>
    Except.ok { name := name,
                source := _get_dom_attribute xml_dom "source" none,
                type := _get_dom_attribute xml_dom "type" none,
                location := _get_dom_attribute xml_dom "location" none,
                sourceAccount := _get_dom_attribute xml_dom "sourceAccount" none,
                isPresetable := _get_dom_attribute xml_dom "isPresetable" none = some "true" }

/-- `Status`: the parsed now-playing snapshot. -/
structure Status where
  source : Option String
  contentItem : Option ContentItem
  track : Option String
  artist : Option String
  album : Option String
  image : Option String
  duration : Option Int
  position : Option Int
  playStatus : Option String
  shuffleSetting : Option String
  repeatSetting : Option String
  streamType : Option String
  trackId : Option String
  stationName : Option String
  description : Option String
  stationLocation : Option String
deriving DecidableEq

/-- `Status.__init__(xml_dom)`: field-by-field extraction in source order; the
image is only read when the `art` element's `artImageStatus` attribute equals
`"IMAGE_PRESENT"`; `duration` comes from the `time` element's `total`
attribute and `position` from its text, both through `int(...)` guarded
against `None`. -/
def Status.init (xml_dom : Dom) : Except PyError Status :=
  match (match _get_dom_element xml_dom "ContentItem" with
         | some el =>
           match ContentItem.init el with
           | Except.error e => Except.error e
           | Except.ok ci => Except.ok (some ci)
         | none => Except.ok none) with
  | Except.error e => Except.error e
  | Except.ok contentItem =>
  match _get_dom_element_value xml_dom "track" none with
  | Except.error e => Except.error e
  | Except.ok track =>
  match _get_dom_element_value xml_dom "artist" none with
  | Except.error e => Except.error e
  | Except.ok artist =>
  match _get_dom_element_value xml_dom "album" none with
  | Except.error e => Except.error e
  | Except.ok album =>
  match (if _get_dom_element_attribute xml_dom "art" "artImageStatus" none
            = some "IMAGE_PRESENT"
         then _get_dom_element_value xml_dom "art" none
         else Except.ok none) with
  | Except.error e => Except.error e
  | Except.ok image =>
  match (match _get_dom_element_attribute xml_dom "time" "total" none with
         | some d =>
           match pyStrToInt d with
           | Except.error e => Except.error e
           | Except.ok n => Except.ok (some n)
         | none => Except.ok none) with
  | Except.error e => Except.error e
  | Except.ok duration =>
  match _get_dom_element_value xml_dom "time" none with
  | Except.error e => Except.error e
  | Except.ok positionText =>
  match (match positionText with
         | some p =>
           match pyStrToInt p with
           | Except.error e => Except.error e
           | Except.ok n => Except.ok (some n)
         | none => Except.ok none) with
  | Except.error e => Except.error e
  | Except.ok position =>
  match _get_dom_element_value xml_dom "playStatus" none with
  | Except.error e => Except.error e
  | Except.ok playStatus =>
  match _get_dom_element_value xml_dom "shuffleSetting" none with
  | Except.error e => Except.error e
  | Except.ok shuffleSetting =>
  match _get_dom_element_value xml_dom "repeatSetting" none with
  | Except.error e => Except.error e
  | Except.ok repeatSetting =>
  match _get_dom_element_value xml_dom "streamType" none with
  | Except.error e => Except.error e
  | Except.ok streamType =>
  match _get_dom_element_value xml_dom "trackID" none with
  | Except.error e => Except.error e
  | Except.ok trackId =>
  match _get_dom_element_value xml_dom "stationName" none with
  | Except.error e => Except.error e
  | Except.ok stationName =>
  match _get_dom_element_value xml_dom "description" none with
  | Except.error e => Except.error e
  | Except.ok description =>
  match _get_dom_element_value xml_dom "stationLocation" none with
  | Except.error e => Except.error e
  | Except.ok stationLocation =>
    Except.ok { source := _get_dom_element_attribute xml_dom "nowPlaying" "source" none,
                contentItem := contentItem,
                track := track, artist := artist, album := album,
                image := image, duration := duration, position := position,
                playStatus := playStatus, shuffleSetting := shuffleSetting,
                repeatSetting := repeatSetting, streamType := streamType,
                trackId := trackId, stationName := stationName,
                description := description, stationLocation := stationLocation }

/-- `Preset`: one preset entry; `sourceXml` keeps the `ContentItem` element
whose serialization (`.toxml()`) the source stores for the later preset
selection call. -/
structure Preset where
  name : Option String
  id : Option String
  source : Option String
  type : Option String
  location : Option String
  sourceAccount : Option String
  isPresetable : Bool
  sourceXml : Node

/-- `Preset.__init__(preset_dom)`: `itemName` text, the `id` attribute of the
preset node, four attributes of the embedded `ContentItem`, and the raw
`ContentItem` fragment.  When the preset has no `ContentItem` element,
`.toxml()` is called on `None` and raises an `AttributeError`. -/
def Preset.init (preset_dom : Node) : Except PyError Preset :=
  match _get_dom_element_value (Dom.node preset_dom) "itemName" none with
  | Except.error e => Except.error e
  | Except.ok name =>
    match _get_dom_element (Dom.node preset_dom) "ContentItem" with
    | some ci =>
      Except.ok { name := name,
                  id := _get_dom_attribute preset_dom "id" none,
                  source := _get_dom_element_attribute (Dom.node preset_dom)
                    "ContentItem" "source" none,
                  type := _get_dom_element_attribute (Dom.node preset_dom)
                    "ContentItem" "type" none,
                  location := _get_dom_element_attribute (Dom.node preset_dom)
                    "ContentItem" "location" none,
                  sourceAccount := _get_dom_element_attribute (Dom.node preset_dom)
                    "ContentItem" "sourceAccount" none,
                  isPresetable := _get_dom_element_attribute (Dom.node preset_dom)
                    "ContentItem" "isPresetable" none = some "true",
                  sourceXml := ci }
    | none => Except.error PyError.attributeError

/-- `ZoneSlave`: one zone member. -/
structure ZoneSlave where
  ip : Option String
  role : Option String
deriving DecidableEq

/-- `ZoneSlave.__init__(member_dom)`. -/
def ZoneSlave.init (member_dom : Node) : ZoneSlave :=
  { ip := _get_dom_attribute member_dom "ipaddress" none,
    role := _get_dom_attribute member_dom "role" none }

/-- `ZoneStatus`: the parsed multi-room zone snapshot. -/
structure ZoneStatus where
  masterId : Option String
  masterIp : Option String
  isMaster : Bool
  slaves : List ZoneSlave
deriving DecidableEq

/-- `ZoneStatus.__init__(zone_dom)`: master attributes of the `zone` element,
`isMaster` true iff `senderIPAddress` is absent, one `ZoneSlave` per `member`
element. -/
def ZoneStatus.init (zone_dom : Dom) : ZoneStatus :=
  let masterIp := _get_dom_element_attribute zone_dom "zone" "senderIPAddress" none
  { masterId := _get_dom_element_attribute zone_dom "zone" "master" none,
    masterIp := masterIp,
    isMaster := masterIp.isNone,
    slaves := (_get_dom_elements zone_dom "member").map ZoneSlave.init }

/-- `Network`: one `networkInfo` entry of the device configuration. -/
structure Network where
  type : String
  macAddress : Option String
  ipAddress : Option String
deriving DecidableEq

/-- `Network.__init__(network_dom)`: the `type` attribute is read with a plain
dictionary subscript, so its absence raises a `KeyError`. -/
def Network.init (network_dom : Node) : Except PyError Network :=
  match network_dom.getAttribute "type" with
  | none => Except.error PyError.keyError
  | some t =>
    match _get_dom_element_value (Dom.node network_dom) "macAddress" none with
    | Except.error e => Except.error e
    | Except.ok mac =>
      match _get_dom_element_value (Dom.node network_dom) "ipAddress" none with
      | Except.error e => Except.error e
      | Except.ok ip =>
        Except.ok { type := t, macAddress := mac, ipAddress := ip }

/-- `Component`: one hardware/software component entry. -/
structure Component where
  category : Option String
  softwareVersion : Option String
  serialNumber : Option String
deriving DecidableEq

/-- `Component.__init__(component_dom)`. -/
def Component.init (component_dom : Node) : Except PyError Component :=
  match _get_dom_element_value (Dom.node component_dom) "componentCategory" none with
  | Except.error e => Except.error e
  | Except.ok category =>
    match _get_dom_element_value (Dom.node component_dom) "softwareVersion" none with
    | Except.error e => Except.error e
    | Except.ok sv =>
      match _get_dom_element_value (Dom.node component_dom) "serialNumber" none with
      | Except.error e => Except.error e
      | Except.ok sn =>
        Except.ok { category := category, softwareVersion := sv, serialNumber := sn }

/-- `Config`: the parsed device configuration. -/
structure Config where
  id : Option String
  name : Option String
  type : Option String
  accountUuid : Option String
  moduleType : Option String
  variant : Option String
  variantMode : Option String
  countryCode : Option String
  regionCode : Option String
  networks : List Network
  components : List Component
deriving DecidableEq

/-- `Config.__init__(xml_dom)`: identity fields by element text or attribute,
one `Network` per `networkInfo` element, and the components of every
`components` element flattened in document order. -/
def Config.init (xml_dom : Dom) : Except PyError Config :=
  match _get_dom_element_value xml_dom "name" none with
  | Except.error e => Except.error e
  | Except.ok name =>
  match _get_dom_element_value xml_dom "type" none with
  | Except.error e => Except.error e
  | Except.ok type_ =>
  match _get_dom_element_value xml_dom "margeAccountUUID" none with
  | Except.error e => Except.error e
  | Except.ok accountUuid =>
  match _get_dom_element_value xml_dom "moduleType" none with
  | Except.error e => Except.error e
  | Except.ok moduleType =>
  match _get_dom_element_value xml_dom "variant" none with
  | Except.error e => Except.error e
  | Except.ok variant =>
  match _get_dom_element_value xml_dom "variantMode" none with
  | Except.error e => Except.error e
  | Except.ok variantMode =>
  match _get_dom_element_value xml_dom "countryCode" none with
  | Except.error e => Except.error e
  | Except.ok countryCode =>
  match _get_dom_element_value xml_dom "regionCode" none with
  | Except.error e => Except.error e
  | Except.ok regionCode =>
  match (xml_dom.getElementsByTagName "networkInfo").mapM Network.init with
  | Except.error e => Except.error e
  | Except.ok networks =>
  match (_get_dom_elements xml_dom "components").mapM
          (fun cs => (_get_dom_elements (Dom.node cs) "component").mapM Component.init) with
  | Except.error e => Except.error e
  | Except.ok componentGroups =>
    Except.ok { id := _get_dom_element_attribute xml_dom "info" "deviceID" none,
                name := name, type := type_, accountUuid := accountUuid,
                moduleType := moduleType, variant := variant,
                variantMode := variantMode, countryCode := countryCode,
                regionCode := regionCode, networks := networks,
                components := componentGroups.flatten }

/-- An application callback handle.  Python compares listeners with `==`,
which for callables is identity, so a handle is modelled as an opaque
identifier with decidable equality. -/
abbrev Listener := Nat

/-- Observable actions of one frame dispatch: collaborator fetches and
listener invocations, in execution order. -/
inductive Event where
  | fetchZoneStatus
  | fetchDeviceConfig
  | volumeCall (l : Listener) (v : Volume)
  | statusCall (l : Listener) (s : Status)
  | presetsCall (l : Listener) (ps : List Preset)
  | zoneCall (l : Listener) (z : Option ZoneStatus)
  | infoCall (l : Listener) (c : Config)

/-- The five event categories of the dispatcher. -/
inductive Cat where
  | volume
  | nowPlaying
  | presets
  | zone
  | info
deriving DecidableEq

/-- The category an action-node tag selects, `none` for unknown tags. -/
def actionCat : String → Option Cat
  | "volumeUpdated" => some Cat.volume
  | "nowPlayingUpdated" => some Cat.nowPlaying
  | "presetsUpdated" => some Cat.presets
  | "zoneUpdated" => some Cat.zone
  | "infoUpdated" => some Cat.info
  | _ => none

/-- The category an observable event belongs to. -/
def Event.cat : Event → Cat
  | Event.fetchZoneStatus => Cat.zone
  | Event.fetchDeviceConfig => Cat.info
  | Event.volumeCall _ _ => Cat.volume
  | Event.statusCall _ _ => Cat.nowPlaying
  | Event.presetsCall _ _ => Cat.presets
  | Event.zoneCall _ _ => Cat.zone
  | Event.infoCall _ _ => Cat.info

/-- Recognizes the zone-status fetch event. -/
def Event.isFetchZone : Event → Bool
  | Event.fetchZoneStatus => true
  | _ => false

/-- The mutable fields of a `SoundTouchDevice`: one cached snapshot and one
listener list per category (`self._volume`, `self._status`, `self._presets`,
`self._zone_status`, `self._config`, and the five `*_updated_listeners`
lists). -/
structure DeviceState where
  volume : Option Volume
  status : Option Status
  presets : Option (List Preset)
  zoneStatus : Option ZoneStatus
  config : Config
  volumeListeners : List Listener
  statusListeners : List Listener
  presetsListeners : List Listener
  zoneListeners : List Listener
  deviceInfoListeners : List Listener

/-- The out-of-scope HTTP collaborators, as the parsed documents their
endpoints return (`/getZone` and `/info`). -/
structure Env where
  getZoneResponse : Dom
  getInfoResponse : Dom

/-- `SoundTouchDevice.__run_listener(listeners, value)`: call every listener
with the value, in list order. -/
def run_listener {α : Type} (listeners : List Listener)
    (mk : Listener → α → Event) (value : α) : List Event :=
  listeners.map (fun l => mk l value)

/-- `refresh_zone_status(self)`: fetch `/getZone` and replace the cached zone
status with the parsed document when it has `member` elements, with `None`
otherwise. -/
def refresh_zone_status (env : Env) (st : DeviceState) : DeviceState × List Event :=
  let dom := env.getZoneResponse
  ( if (_get_dom_elements dom "member").isEmpty then
      { st with zoneStatus := none }
    else
      { st with zoneStatus := some (ZoneStatus.init dom) },
    [Event.fetchZoneStatus] )

/-- `zone_status(self, refresh)`: refresh when the cache is empty or a
refresh is requested, then return the cached value. -/
def zone_status (env : Env) (st : DeviceState) (refresh : Bool) :
    DeviceState × Option ZoneStatus × List Event :=
  if st.zoneStatus.isNone || refresh then
    let r := refresh_zone_status env st
    (r.1, r.1.zoneStatus, r.2)
  else
    (st, st.zoneStatus, [])

/-- `SoundTouchDevice.__init_config(self)`: fetch `/info` and rebuild the
cached `Config` wholesale. -/
def init_config (env : Env) (st : DeviceState) :
    Except PyError (DeviceState × List Event) :=
  match Config.init env.getInfoResponse with
  | Except.error e => Except.error e
  | Except.ok c => Except.ok ({ st with config := c }, [Event.fetchDeviceConfig])

/-- `SoundTouchDevice._on_message(self, web_socket, message)` on an already
parsed document: classify the envelope by the root's first child and run the
matching branch.  The five `if` statements of the source are sequential, not
`elif`, so they are threaded in order here; their conditions are mutually
exclusive equalities on the same tag string. -/
def on_message_dom (env : Env) (st : DeviceState) (dom : Dom) :
    Except PyError (DeviceState × List Event) :=
  match Dom.firstChild dom with
  | none => Except.error PyError.attributeError
  | some root =>
    if Node.nodeName root = "updates" then
      match Node.firstChild root with
      | none => Except.error PyError.attributeError
      | some action_node =>
        match
          (if Node.nodeName action_node = "volumeUpdated" then
            match Node.firstChild action_node with
            | none => Except.error PyError.attributeError
            | some vnode =>
              match Volume.init (Dom.node vnode) with
              | Except.error e => Except.error e
              | Except.ok v =>
                Except.ok ({ st with volume := some v },
                  run_listener st.volumeListeners Event.volumeCall v)
          else Except.ok (st, [])) with
        | Except.error e => Except.error e
        | Except.ok r1 =>
        match
          (if Node.nodeName action_node = "nowPlayingUpdated" then
            match Status.init (Dom.node action_node) with
            | Except.error e => Except.error e
            | Except.ok s =>
              Except.ok ({ r1.1 with status := some s },
                r1.2 ++ run_listener r1.1.statusListeners Event.statusCall s)
          else Except.ok r1) with
        | Except.error e => Except.error e
        | Except.ok r2 =>
        match
          (if Node.nodeName action_node = "presetsUpdated"
              ∧ Node.hasChildNodes action_node = true then
            match (_get_dom_elements dom "preset").mapM Preset.init with
            | Except.error e => Except.error e
            | Except.ok ps =>
              Except.ok ({ r2.1 with presets := some ps },
                r2.2 ++ run_listener r2.1.presetsListeners Event.presetsCall ps)
          else Except.ok r2) with
        | Except.error e => Except.error e
        | Except.ok r3 =>
        let r4 :=
          if Node.nodeName action_node = "zoneUpdated" then
            let z := zone_status env r3.1 true
            (z.1, r3.2 ++ z.2.2 ++ run_listener r3.1.zoneListeners Event.zoneCall z.2.1)
          else r3
        if Node.nodeName action_node = "infoUpdated" then
          match init_config env r4.1 with
          | Except.error e => Except.error e
          | Except.ok ic =>
            Except.ok (ic.1, r4.2 ++ ic.2 ++
              run_listener ic.1.deviceInfoListeners Event.infoCall ic.1.config)
        else Except.ok r4
    else Except.ok (st, [])

/-- `SoundTouchDevice._on_message(self, web_socket, message)` on a raw frame:
`minidom.parseString(message)` runs first, and the handler has no exception
boundary, so the `message` argument is the parse result and a parse failure
propagates straight out of the handler. -/
def on_message (env : Env) (st : DeviceState) (message : Except PyError Dom) :
    Except PyError (DeviceState × List Event) :=
  match message with
  | Except.error e => Except.error e
  | Except.ok dom => on_message_dom env st dom

/-- `add_volume_listener(self, listener)`: append to the ordered list. -/
def add_volume_listener (st : DeviceState) (l : Listener) : DeviceState :=
  { st with volumeListeners := st.volumeListeners ++ [l] }

/-- `add_status_listener(self, listener)`. -/
def add_status_listener (st : DeviceState) (l : Listener) : DeviceState :=
  { st with statusListeners := st.statusListeners ++ [l] }

/-- `add_presets_listener(self, listener)`. -/
def add_presets_listener (st : DeviceState) (l : Listener) : DeviceState :=
  { st with presetsListeners := st.presetsListeners ++ [l] }

/-- `add_zone_status_listener(self, listener)`. -/
def add_zone_status_listener (st : DeviceState) (l : Listener) : DeviceState :=
  { st with zoneListeners := st.zoneListeners ++ [l] }

/-- `add_device_info_listener(self, listener)`. -/
def add_device_info_listener (st : DeviceState) (l : Listener) : DeviceState :=
  { st with deviceInfoListeners := st.deviceInfoListeners ++ [l] }

/-- `remove_volume_listener(self, listener)`: `list.remove` of the first
equal element, guarded by a membership test. -/
def remove_volume_listener (st : DeviceState) (l : Listener) : DeviceState :=
  if l ∈ st.volumeListeners then
    { st with volumeListeners := st.volumeListeners.erase l }
  else st

/-- `remove_status_listener(self, listener)`. -/
def remove_status_listener (st : DeviceState) (l : Listener) : DeviceState :=
  if l ∈ st.statusListeners then
    { st with statusListeners := st.statusListeners.erase l }
  else st

/-- `remove_presets_listener(self, listener)`. -/
def remove_presets_listener (st : DeviceState) (l : Listener) : DeviceState :=
  if l ∈ st.presetsListeners then
    { st with presetsListeners := st.presetsListeners.erase l }
  else st

/-- `remove_zone_status_listener(self, listener)`. -/
def remove_zone_status_listener (st : DeviceState) (l : Listener) : DeviceState :=
  if l ∈ st.zoneListeners then
    { st with zoneListeners := st.zoneListeners.erase l }
  else st

/-- `remove_device_info_listener(self, listener)`. -/
def remove_device_info_listener (st : DeviceState) (l : Listener) : DeviceState :=
  if l ∈ st.deviceInfoListeners then
    { st with deviceInfoListeners := st.deviceInfoListeners.erase l }
  else st

/-- Per-frame category isolation: processing one `updates` envelope leaves
every listener registry unchanged, emits only events of the category its
action tag selects, leaves the cached field of every other category
unchanged, and is a complete no-op for an unknown tag. -/
def CategoryIsolation (st stA : DeviceState) (tag : String)
    (evs : List Event) : Prop :=
  stA.volumeListeners = st.volumeListeners ∧
  stA.statusListeners = st.statusListeners ∧
  stA.presetsListeners = st.presetsListeners ∧
  stA.zoneListeners = st.zoneListeners ∧
  stA.deviceInfoListeners = st.deviceInfoListeners ∧
  (∀ e ∈ evs, actionCat tag = some (Event.cat e)) ∧
  (actionCat tag ≠ some Cat.volume → stA.volume = st.volume) ∧
  (actionCat tag ≠ some Cat.nowPlaying → stA.status = st.status) ∧
  (actionCat tag ≠ some Cat.presets → stA.presets = st.presets) ∧
  (actionCat tag ≠ some Cat.zone → stA.zoneStatus = st.zoneStatus) ∧
  (actionCat tag ≠ some Cat.info → stA.config = st.config) ∧
  (actionCat tag = none → stA = st ∧ evs = [])

/-- A fixed device configuration used as the initial cached `Config` of the
concrete states below. -/
def cfg0 : Config :=
  { id := none, name := none, type := none, accountUuid := none,
    moduleType := none, variant := none, variantMode := none,
    countryCode := none, regionCode := none, networks := [], components := [] }

/-- A concrete device state with two volume listeners and one listener of
each other category. -/
def st0 : DeviceState :=
  { volume := none, status := none, presets := none, zoneStatus := none,
    config := cfg0,
    volumeListeners := [1, 2], statusListeners := [3],
    presetsListeners := [4], zoneListeners := [5],
    deviceInfoListeners := [6] }

/-- A concrete collaborator environment: `/getZone` returns a zone with one
member, `/info` a minimal device description. -/
def env0 : Env :=
  { getZoneResponse := Dom.doc (Node.element "zone" [("master", "m1")]
      [Node.element "member" [("ipaddress", "10.1.1.2")] [Node.text "id2"]]),
    getInfoResponse := Dom.doc (Node.element "info" [("deviceID", "d1")]
      [Node.element "name" [] [Node.text "Living"]]) }

/-- A concrete `volume` payload element. -/
def volDom : Node :=
  Node.element "volume" []
    [Node.element "actualvolume" [] [Node.text "10"],
     Node.element "targetvolume" [] [Node.text "12"],
     Node.element "muteenabled" [] [Node.text "true"]]

/-- A concrete `preset` element with an embedded `ContentItem`. -/
def presetNode : Node :=
  Node.element "preset" [("id", "1")]
    [Node.element "ContentItem" [("source", "AUX")]
      [Node.element "itemName" [] [Node.text "p"]]]

/-- The `Preset` value `presetNode` parses to. -/
def preset1 : Preset :=
  { name := some "p", id := some "1", source := some "AUX", type := none,
    location := none, sourceAccount := none, isPresetable := false,
    sourceXml := Node.element "ContentItem" [("source", "AUX")]
      [Node.element "itemName" [] [Node.text "p"]] }

/-- C1: a `volumeUpdated` envelope replaces the cached volume with the
`Volume` parsed from the action node's first child and invokes every
registered volume listener exactly once with that value, in registration
order. -/
theorem volumeUpdated_dispatch (env : Env) (st : DeviceState)
    (a1 a2 : List (String × String)) (vnode : Node) (vrest rest : List Node)
    (v : Volume) (hv : Volume.init (Dom.node vnode) = Except.ok v) :
    on_message_dom env st (Dom.doc (Node.element "updates" a1
      (Node.element "volumeUpdated" a2 (vnode :: vrest) :: rest)))
      = Except.ok ({ st with volume := some v },
          run_listener st.volumeListeners Event.volumeCall v) := by
  simp [on_message_dom, Dom.firstChild, Node.firstChild, Node.childList,
        Node.nodeName, hv]

/-- Witness for C1: a concrete `volumeUpdated` envelope sets the cached
volume to 10/12/muted and fires the two registered volume listeners in
order. -/
theorem volumeUpdated_dispatch_witness :
    on_message_dom env0 st0 (Dom.doc (Node.element "updates" []
      [Node.element "volumeUpdated" [] [volDom]]))
      = Except.ok ({ st0 with volume := some { actual := 10, target := 12, muted := true } },
          [Event.volumeCall 1 { actual := 10, target := 12, muted := true },
           Event.volumeCall 2 { actual := 10, target := 12, muted := true }]) :=
  volumeUpdated_dispatch env0 st0 [] [] volDom [] []
    { actual := 10, target := 12, muted := true } rfl

/-- C2: a `presetsUpdated` action node with no child nodes leaves the state
untouched and fires nothing; with children, the cached preset list is rebuilt
from every `preset` element of the whole document in document order and the
presets listeners fire with that list. -/
theorem presetsUpdated_dispatch (env : Env) (st : DeviceState)
    (a1 a2 : List (String × String)) (pchildren rest : List Node) :
    (pchildren = [] →
      on_message_dom env st (Dom.doc (Node.element "updates" a1
        (Node.element "presetsUpdated" a2 pchildren :: rest)))
        = Except.ok (st, [])) ∧
    (pchildren ≠ [] → ∀ ps : List Preset,
      (_get_dom_elements (Dom.doc (Node.element "updates" a1
          (Node.element "presetsUpdated" a2 pchildren :: rest)))
        "preset").mapM Preset.init = Except.ok ps →
      on_message_dom env st (Dom.doc (Node.element "updates" a1
        (Node.element "presetsUpdated" a2 pchildren :: rest)))
        = Except.ok ({ st with presets := some ps },
            run_listener st.presetsListeners Event.presetsCall ps)) := by
  constructor
  · intro h
    subst h
    simp [on_message_dom, Dom.firstChild, Node.firstChild, Node.childList,
          Node.nodeName, Node.hasChildNodes]
  · intro h ps hps
    unfold List.mapM at hps
    simp [on_message_dom, Dom.firstChild, Node.firstChild, Node.childList,
          Node.nodeName, Node.hasChildNodes, List.isEmpty_iff, h, hps]

/-- Witness for C2: an empty `presetsUpdated` is a no-op, and one with a
`preset` child rebuilds the cached list as `[preset1]` and fires the presets
listener with it. -/
theorem presetsUpdated_dispatch_witness :
    on_message_dom env0 st0 (Dom.doc (Node.element "updates" []
      [Node.element "presetsUpdated" [] []])) = Except.ok (st0, []) ∧
    on_message_dom env0 st0 (Dom.doc (Node.element "updates" []
      [Node.element "presetsUpdated" [] [presetNode]]))
      = Except.ok ({ st0 with presets := some [preset1] },
          [Event.presetsCall 4 [preset1]]) :=
  ⟨(presetsUpdated_dispatch env0 st0 [] [] [] []).1 rfl,
   (presetsUpdated_dispatch env0 st0 [] [] [presetNode] []).2
     (by simp) [preset1] rfl⟩

/-- C3: the message handler has no exception boundary, so a parse failure on
an inbound frame propagates out of `_on_message` instead of being reported
and swallowed; with a strict receive loop this terminates frame processing.
This refutes the claimed catch-report-continue behavior. -/
theorem parse_failure_propagates (env : Env) (st : DeviceState) (e : PyError) :
    on_message env st (Except.error e) = Except.error e := rfl

/-- C4: a `zoneUpdated` envelope performs exactly one zone-status fetch,
replaces the cached zone status with the fetched result (absent when the
fetched document has no `member` elements), and invokes every registered
zone-status listener with that fetched value. -/
theorem zoneUpdated_dispatch (env : Env) (st : DeviceState)
    (a1 a2 : List (String × String)) (zchildren rest : List Node) :
    on_message_dom env st (Dom.doc (Node.element "updates" a1
      (Node.element "zoneUpdated" a2 zchildren :: rest)))
      = Except.ok ((refresh_zone_status env st).1,
          Event.fetchZoneStatus ::
            run_listener st.zoneListeners Event.zoneCall
              (refresh_zone_status env st).1.zoneStatus) ∧
    (refresh_zone_status env st).1.zoneStatus
      = (if (_get_dom_elements env.getZoneResponse "member").isEmpty then none
         else some (ZoneStatus.init env.getZoneResponse)) ∧
    (Event.fetchZoneStatus ::
      run_listener st.zoneListeners Event.zoneCall
        (refresh_zone_status env st).1.zoneStatus).countP
          (fun ev => Event.isFetchZone ev) = 1 := by
  refine ⟨?_, ?_, ?_⟩
  · simp [on_message_dom, Dom.firstChild, Node.firstChild, Node.childList,
          Node.nodeName, zone_status, refresh_zone_status]
  · by_cases hm : (_get_dom_elements env.getZoneResponse "member").isEmpty
    · simp [refresh_zone_status, hm]
    · simp [refresh_zone_status, hm]
  · simp only [run_listener, List.countP_cons, List.countP_map,
      Event.isFetchZone, if_pos rfl]
    rw [List.countP_eq_zero.2]
    · simp
    · intro a ha
      simp [Function.comp]

/-- C5: a well-formed frame whose root element is not named `updates` changes
no cached value and invokes no listener. -/
theorem non_updates_root_noop (env : Env) (st : DeviceState) (root : Node)
    (h : root.nodeName ≠ "updates") :
    on_message_dom env st (Dom.doc root) = Except.ok (st, []) := by
  simp [on_message_dom, Dom.firstChild, h]

/-- Witness for C5: a `<foo/>` frame leaves the concrete state untouched and
fires nothing. -/
theorem non_updates_root_noop_witness :
    on_message_dom env0 st0 (Dom.doc (Node.element "foo" [] []))
      = Except.ok (st0, []) :=
  non_updates_root_noop env0 st0 (Node.element "foo" [] []) (by decide)

/-- C10: an `updates` envelope with no child node at all is not silently
ignored: reading `nodeName` of the absent first child raises an
`AttributeError` inside the handler. -/
theorem updates_without_child_errors (env : Env) (st : DeviceState)
    (a1 : List (String × String)) :
    on_message_dom env st (Dom.doc (Node.element "updates" a1 []))
      = Except.error PyError.attributeError := by
  simp [on_message_dom, Dom.firstChild, Node.firstChild, Node.childList,
        Node.nodeName]

/-- Counterexample for C6: a `volume` payload with no `actualvolume` text
makes `Volume.__init__` call `int(None)`, which raises a `TypeError` — the
field is not "absent rather than zero or an error". -/
theorem volume_absent_text_raises :
    Volume.init (Dom.node (Node.element "volume" [] []))
      = Except.error PyError.typeError := rfl

/-- C6 as amended: `duration`, `position` and the volume levels are parsed as
base-10 integers; for `Status`, absent source text yields an absent field
(`total="237"`/text `"42"` gives 237/42, omitting `total` gives an absent
duration with the position still parsed); for `Volume`, absent source text
raises a `TypeError` instead of yielding an absent field. -/
theorem numeric_field_parsing :
    (Status.init (Dom.node (Node.element "nowPlayingUpdated" []
        [Node.element "time" [("total", "237")] [Node.text "42"]]))).map
      (fun s => (s.duration, s.position)) = Except.ok (some 237, some 42) ∧
    (Status.init (Dom.node (Node.element "nowPlayingUpdated" []
        [Node.element "time" [] [Node.text "42"]]))).map
      (fun s => (s.duration, s.position)) = Except.ok (none, some 42) ∧
    (Status.init (Dom.node (Node.element "nowPlayingUpdated" [] []))).map
      (fun s => (s.duration, s.position)) = Except.ok (none, none) ∧
    Volume.init (Dom.node volDom)
      = Except.ok { actual := 10, target := 12, muted := true } ∧
    Volume.init (Dom.node (Node.element "volume" []
        [Node.element "targetvolume" [] [Node.text "12"]]))
      = Except.error PyError.typeError :=
  ⟨rfl, rfl, rfl, rfl, rfl⟩

/-- C7: when the `art` element's `artImageStatus` attribute is anything other
than `IMAGE_PRESENT`, the parsed `Status.image` is absent no matter what text
the element carries. -/
theorem art_not_present_image_absent (xml_dom : Dom) (s : Status)
    (h : _get_dom_element_attribute xml_dom "art" "artImageStatus" none
          ≠ some "IMAGE_PRESENT")
    (hs : Status.init xml_dom = Except.ok s) : s.image = none := by
  unfold Status.init at hs
  rw [if_neg h] at hs
  repeat' split at hs
  all_goals simp_all
  subst hs
  rfl

/-- The `Status` value parsed from a now-playing payload whose `art` element
says `IMAGE_NOT_PRESENT` but still carries a URL text. -/
def statusArtNotPresent : Status :=
  { source := none, contentItem := none, track := none, artist := none,
    album := none, image := none, duration := none, position := none,
    playStatus := none, shuffleSetting := none, repeatSetting := none,
    streamType := none, trackId := none, stationName := none,
    description := none, stationLocation := none }

/-- Witness for C7: a concrete `art` element with
`artImageStatus="IMAGE_NOT_PRESENT"` and a URL inside still parses to an
absent image. -/
theorem art_not_present_image_absent_witness :
    Status.init (Dom.node (Node.element "nowPlayingUpdated" []
        [Node.element "art" [("artImageStatus", "IMAGE_NOT_PRESENT")]
          [Node.text "http://img"]]))
      = Except.ok statusArtNotPresent ∧
    statusArtNotPresent.image = none :=
  ⟨rfl, art_not_present_image_absent
    (Dom.node (Node.element "nowPlayingUpdated" []
      [Node.element "art" [("artImageStatus", "IMAGE_NOT_PRESENT")]
        [Node.text "http://img"]]))
    statusArtNotPresent (by decide) rfl⟩

/-- C8: for every listener registry, registration appends to the ordered
sequence (duplicates allowed, each a distinct entry), unregistration removes
the first equal match when one is present, and unregistering an absent
callback is a no-op with no error and no state change. -/
theorem listener_registry_ops (st : DeviceState) (l : Listener) :
    ((add_volume_listener st l).volumeListeners = st.volumeListeners ++ [l] ∧
     (add_volume_listener (add_volume_listener st l) l).volumeListeners
        = st.volumeListeners ++ [l, l] ∧
     (l ∈ st.volumeListeners → ∃ lpre lpost, l ∉ lpre ∧
        st.volumeListeners = lpre ++ l :: lpost ∧
        (remove_volume_listener st l).volumeListeners = lpre ++ lpost) ∧
     (l ∉ st.volumeListeners → remove_volume_listener st l = st)) ∧
    ((add_status_listener st l).statusListeners = st.statusListeners ++ [l] ∧
     (l ∈ st.statusListeners → ∃ lpre lpost, l ∉ lpre ∧
        st.statusListeners = lpre ++ l :: lpost ∧
        (remove_status_listener st l).statusListeners = lpre ++ lpost) ∧
     (l ∉ st.statusListeners → remove_status_listener st l = st)) ∧
    ((add_presets_listener st l).presetsListeners = st.presetsListeners ++ [l] ∧
     (l ∈ st.presetsListeners → ∃ lpre lpost, l ∉ lpre ∧
        st.presetsListeners = lpre ++ l :: lpost ∧
        (remove_presets_listener st l).presetsListeners = lpre ++ lpost) ∧
     (l ∉ st.presetsListeners → remove_presets_listener st l = st)) ∧
    ((add_zone_status_listener st l).zoneListeners = st.zoneListeners ++ [l] ∧
     (l ∈ st.zoneListeners → ∃ lpre lpost, l ∉ lpre ∧
        st.zoneListeners = lpre ++ l :: lpost ∧
        (remove_zone_status_listener st l).zoneListeners = lpre ++ lpost) ∧
     (l ∉ st.zoneListeners → remove_zone_status_listener st l = st)) ∧
    ((add_device_info_listener st l).deviceInfoListeners
        = st.deviceInfoListeners ++ [l] ∧
     (l ∈ st.deviceInfoListeners → ∃ lpre lpost, l ∉ lpre ∧
        st.deviceInfoListeners = lpre ++ l :: lpost ∧
        (remove_device_info_listener st l).deviceInfoListeners = lpre ++ lpost) ∧
     (l ∉ st.deviceInfoListeners → remove_device_info_listener st l = st)) := by
  refine ⟨⟨by simp [add_volume_listener], by simp [add_volume_listener], ?_, ?_⟩,
          ⟨by simp [add_status_listener], ?_, ?_⟩,
          ⟨by simp [add_presets_listener], ?_, ?_⟩,
          ⟨by simp [add_zone_status_listener], ?_, ?_⟩,
          ⟨by simp [add_device_info_listener], ?_, ?_⟩⟩
  all_goals intro h
  · simpa [remove_volume_listener, if_pos h] using List.exists_erase_eq h
  · simp [remove_volume_listener, h]
  · simpa [remove_status_listener, if_pos h] using List.exists_erase_eq h
  · simp [remove_status_listener, h]
  · simpa [remove_presets_listener, if_pos h] using List.exists_erase_eq h
  · simp [remove_presets_listener, h]
  · simpa [remove_zone_status_listener, if_pos h] using List.exists_erase_eq h
  · simp [remove_zone_status_listener, h]
  · simpa [remove_device_info_listener, if_pos h] using List.exists_erase_eq h
  · simp [remove_device_info_listener, h]

/-- Witness for C8: on the concrete state, registering 7 appends it,
removing the registered 2 deletes exactly its first occurrence, and removing
the unregistered 9 changes nothing. -/
theorem listener_registry_ops_witness :
    (add_volume_listener st0 7).volumeListeners = [1, 2, 7] ∧
    (∃ lpre lpost, (2 : Listener) ∉ lpre ∧
       st0.volumeListeners = lpre ++ 2 :: lpost ∧
       (remove_volume_listener st0 2).volumeListeners = lpre ++ lpost) ∧
    remove_volume_listener st0 9 = st0 :=
  ⟨(listener_registry_ops st0 7).1.1,
   (listener_registry_ops st0 2).1.2.2.1 (by decide),
   (listener_registry_ops st0 9).1.2.2.2 (by decide)⟩

/-- `nodeName` of an element literal is its tag. -/
theorem nodeName_element (t : String) (a : List (String × String))
    (cs : List Node) : Node.nodeName (Node.element t a cs) = t := rfl

/-- An unknown action tag selects no category. -/
theorem actionCat_eq_none {s : String} (h1 : s ≠ "volumeUpdated")
    (h2 : s ≠ "nowPlayingUpdated") (h3 : s ≠ "presetsUpdated")
    (h4 : s ≠ "zoneUpdated") (h5 : s ≠ "infoUpdated") : actionCat s = none := by
  unfold actionCat
  split <;> simp_all

/-- `firstChild` of an element literal with a leading child. -/
theorem firstChild_element_cons (t : String) (a : List (String × String))
    (c : Node) (cs : List Node) :
    Node.firstChild (Node.element t a (c :: cs)) = some c := rfl

/-- C9: processing one `updates` envelope touches at most the category its
action tag names — every listener registry is left unchanged, all emitted
events belong to that category, every other category's cached field is
preserved, and an unknown tag is a complete no-op. -/
theorem category_isolation (env : Env) (st : DeviceState)
    (a1 : List (String × String)) (action_node : Node) (rest : List Node)
    (stA : DeviceState) (evs : List Event)
    (h : on_message_dom env st (Dom.doc (Node.element "updates" a1
          (action_node :: rest))) = Except.ok (stA, evs)) :
    CategoryIsolation st stA action_node.nodeName evs := by
  by_cases h1 : action_node.nodeName = "volumeUpdated"
  · cases hfc : action_node.firstChild with
    | none =>
      simp [on_message_dom, Dom.firstChild, nodeName_element,
        firstChild_element_cons, h1, hfc] at h
    | some vnode =>
      cases hv : Volume.init (Dom.node vnode) with
      | error e =>
        simp [on_message_dom, Dom.firstChild, nodeName_element,
          firstChild_element_cons, h1, hfc, hv] at h
      | ok v =>
        simp [on_message_dom, Dom.firstChild, nodeName_element,
          firstChild_element_cons, h1, hfc, hv] at h
        obtain ⟨ha, hb⟩ := h
        subst ha
        subst hb
        simp [CategoryIsolation, actionCat, h1, run_listener, Event.cat]
  by_cases h2 : action_node.nodeName = "nowPlayingUpdated"
  · cases hs : Status.init (Dom.node action_node) with
    | error e =>
      simp [on_message_dom, Dom.firstChild, nodeName_element,
        firstChild_element_cons, h1, h2, hs] at h
    | ok s =>
      simp [on_message_dom, Dom.firstChild, nodeName_element,
        firstChild_element_cons, h1, h2, hs] at h
      obtain ⟨ha, hb⟩ := h
      subst ha
      subst hb
      simp [CategoryIsolation, actionCat, h2, run_listener, Event.cat]
  by_cases h3 : action_node.nodeName = "presetsUpdated"
  · by_cases hcn : action_node.hasChildNodes = true
    · cases hps : (_get_dom_elements (Dom.doc (Node.element "updates" a1
          (action_node :: rest))) "preset").mapM Preset.init with
      | error e =>
        unfold List.mapM at hps
        simp [on_message_dom, Dom.firstChild, nodeName_element,
          firstChild_element_cons, h1, h2, h3, hcn, hps] at h
      | ok ps =>
        unfold List.mapM at hps
        simp [on_message_dom, Dom.firstChild, nodeName_element,
          firstChild_element_cons, h1, h2, h3, hcn, hps] at h
        obtain ⟨ha, hb⟩ := h
        subst ha
        subst hb
        simp [CategoryIsolation, actionCat, h3, run_listener, Event.cat]
    · simp [on_message_dom, Dom.firstChild, nodeName_element,
        firstChild_element_cons, h1, h2, h3, hcn] at h
      obtain ⟨ha, hb⟩ := h
      subst ha
      subst hb
      simp [CategoryIsolation, actionCat, h3, run_listener, Event.cat]
  by_cases h4 : action_node.nodeName = "zoneUpdated"
  · by_cases hm : (_get_dom_elements env.getZoneResponse "member").isEmpty = true
    · simp [on_message_dom, Dom.firstChild, nodeName_element,
        firstChild_element_cons, h1, h2, h3, h4, zone_status,
        refresh_zone_status, hm] at h
      obtain ⟨ha, hb⟩ := h
      subst ha
      subst hb
      simp [CategoryIsolation, actionCat, h4, run_listener, Event.cat]
    · simp [on_message_dom, Dom.firstChild, nodeName_element,
        firstChild_element_cons, h1, h2, h3, h4, zone_status,
        refresh_zone_status, hm] at h
      obtain ⟨ha, hb⟩ := h
      subst ha
      subst hb
      simp [CategoryIsolation, actionCat, h4, run_listener, Event.cat]
  by_cases h5 : action_node.nodeName = "infoUpdated"
  · cases hc : Config.init env.getInfoResponse with
    | error e =>
      simp [on_message_dom, Dom.firstChild, nodeName_element,
        firstChild_element_cons, h1, h2, h3, h4, h5, init_config, hc] at h
    | ok c =>
      simp [on_message_dom, Dom.firstChild, nodeName_element,
        firstChild_element_cons, h1, h2, h3, h4, h5, init_config, hc] at h
      obtain ⟨ha, hb⟩ := h
      subst ha
      subst hb
      simp [CategoryIsolation, actionCat, h5, run_listener, Event.cat]
  · simp [on_message_dom, Dom.firstChild, nodeName_element,
      firstChild_element_cons, h1, h2, h3, h4, h5] at h
    obtain ⟨ha, hb⟩ := h
    subst ha
    subst hb
    have hc := actionCat_eq_none h1 h2 h3 h4 h5
    simp [CategoryIsolation, hc]

/-- Witness for C9: a concrete envelope with the unknown tag `bogusUpdated`
leaves the concrete state untouched and emits nothing. -/
theorem category_isolation_witness :
    CategoryIsolation st0 st0 "bogusUpdated" [] :=
  category_isolation env0 st0 [] (Node.element "bogusUpdated" [] []) [] st0 [] rfl
